import Mathlib

/-!
Verification of the quote pricing and distance-resolution pipeline of
`src/quote_api.py` (freight quoting service).

Modelling conventions:
* Python floats are modelled as exact rationals (pricing arithmetic) or
  reals (the haversine trigonometry); `round(x, 2)` is modelled as exact
  rounding to the nearest hundredth.
* The external Mapbox Directions call is modelled as an oracle value
  (`MapboxOutcome`): an exception, or a response with a status code and a
  list of routes carrying distance (meters), duration (seconds) and an
  opaque geometry.
* Python string truthiness for the `MAPBOX_API_KEY` environment variable
  (`None` or `""` is falsy) is modelled on `Option String`.
-/

namespace QuoteApi

/-- `round(x, 2)` from `calculate_quote`: rounding to two decimal places,
modelled as exact nearest rounding of the rational value. -/
def round2 (x : ℚ) : ℚ := (round (x * 100) : ℚ) / 100

/-- `base_rate = (distance * 2.0) + (request.weight_lbs * 0.50)` followed by
`base_rate = max(base_rate, 500.0)` (quote_api.py lines 305-308). -/
def base_rate (distance weight_lbs : ℚ) : ℚ :=
  let r := distance * 2.0 + weight_lbs * 0.50
  max r 500.0

/-- `fuel_surcharge = base_rate * 0.15` (line 311). -/
def fuel_surcharge (distance weight_lbs : ℚ) : ℚ :=
  base_rate distance weight_lbs * 0.15

/-- Python `c.lower()` on an ASCII character (`str.lower`). -/
def pyLower (s : String) : String :=
  String.mk (s.data.map Char.toLower)

/-- Python `s.replace(" ", "_")`: the pattern is a single character, so the
replacement acts character-wise. -/
def replaceSpaces (s : String) : String :=
  String.mk (s.data.map (fun c => if c = ' ' then '_' else c))

/-- `s.lower().replace(" ", "_")` applied to each special service
(lines 315 and 330). -/
def normalizeService (s : String) : String :=
  replaceSpaces (pyLower s)

/-- `liftgate_fee = 75.0 if "liftgate" in request.special_services else 0.0`
(line 314): exact, case-sensitive membership in the list as provided. -/
def liftgate_fee (special_services : List String) : ℚ :=
  if "liftgate" ∈ special_services then 75.0 else 0.0

/-- `climate_control_fee = 150.0 if "climate_control" in
[s.lower().replace(" ", "_") for s in request.special_services] else 0.0`
(line 315). -/
def climate_control_fee (special_services : List String) : ℚ :=
  if "climate_control" ∈ special_services.map normalizeService then 150.0 else 0.0

/-- `declared_value = (request.weight_lbs / 100) * 5000` (line 318). -/
def declared_value (weight_lbs : ℚ) : ℚ :=
  (weight_lbs / 100) * 5000

/-- `insurance = declared_value * 0.025` (line 319). -/
def insurance (weight_lbs : ℚ) : ℚ :=
  declared_value weight_lbs * 0.025

/-- `total_cost = base_rate + fuel_surcharge + liftgate_fee +
climate_control_fee + insurance` (line 322). -/
def total_cost (distance weight_lbs : ℚ) (special_services : List String) : ℚ :=
  base_rate distance weight_lbs + fuel_surcharge distance weight_lbs +
    liftgate_fee special_services + climate_control_fee special_services +
    insurance weight_lbs

/-- `transit_days = max(1, min(7, int(math.ceil(duration_hours / 8))))`
(line 325). -/
def transit_days (duration_hours : ℚ) : ℤ :=
  max 1 (min 7 ⌈duration_hours / 8⌉)

/-- Equipment-type selection (lines 328-333): weight test first, then the
normalized climate-control test, else dry van. -/
def equipment_type (weight_lbs : ℚ) (special_services : List String) : String :=
  if weight_lbs > 10000 then "flatbed"
  else if "climate_control" ∈ special_services.map normalizeService then "reefer"
  else "dry_van"

/-- Nearest rounding moves a rational by at most one half, and strictly less
than one half downward. -/
lemma round_sub_bounds (x : ℚ) :
    (round x : ℚ) - x ≤ 1 / 2 ∧ -(1 / 2) < (round x : ℚ) - x := by
  rw [round_eq]
  constructor
  · have h := Int.floor_le (x + 1 / 2)
    linarith
  · have h := Int.lt_floor_add_one (x + 1 / 2)
    linarith

/-- The serialized cost breakdown can drift from the serialized total by at
most one cent: the drift is an integer number of cents strictly between
-2 and 2, provided the un-rounded summand is itself a whole number of
cents. -/
lemma round2_sum_drift (b f lc i : ℚ) (k : ℤ) (hk : lc * 100 = (k : ℚ)) :
    |round2 (b + f + lc + i) - (round2 b + round2 f + lc + round2 i)| ≤ 1 / 100 := by
  set rs : ℤ := round ((b + f + lc + i) * 100) with hrs
  set rb : ℤ := round (b * 100) with hrb
  set rf : ℤ := round (f * 100) with hrf
  set ri : ℤ := round (i * 100) with hri
  have hs := round_sub_bounds ((b + f + lc + i) * 100)
  have hb := round_sub_bounds (b * 100)
  have hf := round_sub_bounds (f * 100)
  have hi := round_sub_bounds (i * 100)
  have hdq : ((rs - rb - rf - ri - k : ℤ) : ℚ) =
      ((rs : ℚ) - (b + f + lc + i) * 100) - ((rb : ℚ) - b * 100) -
        ((rf : ℚ) - f * 100) - ((ri : ℚ) - i * 100) := by
    push_cast
    linear_combination hk
  have hlt : ((rs - rb - rf - ri - k : ℤ) : ℚ) < 2 := by
    rw [hdq]; linarith [hs.1, hb.2, hf.2, hi.2]
  have hgt : (-2 : ℚ) < ((rs - rb - rf - ri - k : ℤ) : ℚ) := by
    rw [hdq]; linarith [hs.2, hb.1, hf.1, hi.1]
  have hzlt : rs - rb - rf - ri - k < 2 := by exact_mod_cast hlt
  have hzgt : (-2 : ℤ) < rs - rb - rf - ri - k := by exact_mod_cast hgt
  have habs : |rs - rb - rf - ri - k| ≤ 1 :=
    abs_le.mpr (by omega)
  have habsq : |((rs - rb - rf - ri - k : ℤ) : ℚ)| ≤ 1 := by
    rw [← Int.cast_abs]
    exact_mod_cast habs
  have hrepr : round2 (b + f + lc + i) - (round2 b + round2 f + lc + round2 i) =
      ((rs - rb - rf - ri - k : ℤ) : ℚ) / 100 := by
    unfold round2
    rw [← hrs, ← hrb, ← hrf, ← hri]
    push_cast
    have hlc : lc = (k : ℚ) / 100 := by
      field_simp at hk ⊢
      linarith [hk]
    rw [hlc]
    ring
  rw [hrepr, abs_div]
  rw [abs_of_nonneg (by norm_num : (0 : ℚ) ≤ 100)]
  linarith [habsq]

/-- The combined special-service fees are a whole number of cents. -/
lemma fees_cents (special_services : List String) :
    ∃ k : ℤ, (liftgate_fee special_services + climate_control_fee special_services) * 100
      = (k : ℚ) := by
  unfold liftgate_fee climate_control_fee
  by_cases h1 : "liftgate" ∈ special_services <;>
    by_cases h2 : "climate_control" ∈ special_services.map normalizeService <;>
      simp [h1, h2]
  · exact ⟨22500, by norm_num⟩
  · exact ⟨7500, by norm_num⟩
  · exact ⟨15000, by norm_num⟩
  · exact ⟨0, by norm_num⟩

/-- C1: for every valid request and resolved distance, the un-rounded total
is exactly the sum of the five breakdown components, and the serialized
(2-decimal-rounded) total differs from the sum of the serialized breakdown
fields by at most 0.01. (The liftgate and climate-control fees are exact
multiples of 0.01, so the code serializes them unrounded.) -/
theorem C1_total_cost_decomposition (distance weight_lbs : ℚ)
    (special_services : List String)
    (hw : 0 < weight_lbs) (hd : 0 ≤ distance) :
    total_cost distance weight_lbs special_services =
        base_rate distance weight_lbs + fuel_surcharge distance weight_lbs +
          liftgate_fee special_services + climate_control_fee special_services +
          insurance weight_lbs
      ∧ |round2 (total_cost distance weight_lbs special_services) -
          (round2 (base_rate distance weight_lbs) +
            round2 (fuel_surcharge distance weight_lbs) +
            liftgate_fee special_services + climate_control_fee special_services +
            round2 (insurance weight_lbs))| ≤ 0.01 := by
  constructor
  · rfl
  · obtain ⟨k, hk⟩ := fees_cents special_services
    have hshape : total_cost distance weight_lbs special_services =
        base_rate distance weight_lbs + fuel_surcharge distance weight_lbs +
          (liftgate_fee special_services + climate_control_fee special_services) +
          insurance weight_lbs := by
      unfold total_cost; ring
    have h := round2_sum_drift (base_rate distance weight_lbs)
      (fuel_surcharge distance weight_lbs)
      (liftgate_fee special_services + climate_control_fee special_services)
      (insurance weight_lbs) k hk
    rw [hshape]
    have hregroup : round2 (base_rate distance weight_lbs) +
        round2 (fuel_surcharge distance weight_lbs) +
        liftgate_fee special_services + climate_control_fee special_services +
        round2 (insurance weight_lbs) =
          round2 (base_rate distance weight_lbs) +
          round2 (fuel_surcharge distance weight_lbs) +
          (liftgate_fee special_services + climate_control_fee special_services) +
          round2 (insurance weight_lbs) := by ring
    rw [hregroup]
    calc |round2 (base_rate distance weight_lbs + fuel_surcharge distance weight_lbs +
            (liftgate_fee special_services + climate_control_fee special_services) +
            insurance weight_lbs) -
          (round2 (base_rate distance weight_lbs) +
            round2 (fuel_surcharge distance weight_lbs) +
            (liftgate_fee special_services + climate_control_fee special_services) +
            round2 (insurance weight_lbs))| ≤ 1 / 100 := h
      _ ≤ 0.01 := by norm_num

/-- Concrete instantiation of `C1_total_cost_decomposition`. -/
theorem C1_total_cost_decomposition_witness :
    (0 : ℚ) < 800 ∧ (0 : ℚ) ≤ 1745 ∧
      (total_cost 1745 800 ["liftgate"] =
          base_rate 1745 800 + fuel_surcharge 1745 800 +
            liftgate_fee ["liftgate"] + climate_control_fee ["liftgate"] +
            insurance 800
        ∧ |round2 (total_cost 1745 800 ["liftgate"]) -
            (round2 (base_rate 1745 800) + round2 (fuel_surcharge 1745 800) +
              liftgate_fee ["liftgate"] + climate_control_fee ["liftgate"] +
              round2 (insurance 800))| ≤ 0.01) :=
  ⟨by norm_num, by norm_num,
    C1_total_cost_decomposition 1745 800 ["liftgate"] (by norm_num) (by norm_num)⟩

/-- C2: the base rate is `max(distance * 2.0 + weight * 0.50, 500.0)` and is
never below 500.0. -/
theorem C2_base_rate_floor (distance weight_lbs : ℚ)
    (hw : 0 < weight_lbs) (hd : 0 ≤ distance) :
    base_rate distance weight_lbs = max (distance * 2.0 + weight_lbs * 0.50) 500.0
      ∧ 500.0 ≤ base_rate distance weight_lbs := by
  refine ⟨rfl, ?_⟩
  unfold base_rate
  exact le_max_right _ _

/-- Concrete instantiation of `C2_base_rate_floor` at a tiny shipment. -/
theorem C2_base_rate_floor_witness :
    (0 : ℚ) < 1 ∧ (0 : ℚ) ≤ 0 ∧
      (base_rate 0 1 = max ((0 : ℚ) * 2.0 + 1 * 0.50) 500.0 ∧ 500.0 ≤ base_rate 0 1) :=
  ⟨by norm_num, by norm_num, C2_base_rate_floor 0 1 (by norm_num) (by norm_num)⟩

/-- C6: transit days clamp the ceiling of `duration_hours / 8` into `[1, 7]`
(either composition order of min and max gives the same clamp), so transit
days are always an integer between 1 and 7. -/
theorem C6_transit_days_clamp (duration_hours : ℚ) (h : 0 ≤ duration_hours) :
    transit_days duration_hours = min 7 (max 1 ⌈duration_hours / 8⌉)
      ∧ 1 ≤ transit_days duration_hours ∧ transit_days duration_hours ≤ 7 := by
  unfold transit_days
  refine ⟨?_, ?_, ?_⟩
  · rcases le_total (⌈duration_hours / 8⌉) 1 with hle | hge
    · omega
    · omega
  · exact le_max_left _ _
  · exact max_le (by norm_num) (min_le_left _ _)

/-- Concrete instantiation of `C6_transit_days_clamp` at 16 driving hours. -/
theorem C6_transit_days_clamp_witness :
    (0 : ℚ) ≤ 16 ∧
      (transit_days 16 = min 7 (max 1 ⌈(16 : ℚ) / 8⌉)
        ∧ 1 ≤ transit_days 16 ∧ transit_days 16 ≤ 7) :=
  ⟨by norm_num, C6_transit_days_clamp 16 (by norm_num)⟩

/-- C7: the liftgate fee is 75.0 exactly when the verbatim string
`"liftgate"` occurs among the special services as provided (case-sensitive
exact match), and the climate-control fee is 150.0 exactly when some special
service equals `"climate_control"` after lower-casing and replacing spaces
with underscores. -/
theorem C7_service_fees (special_services : List String) :
    (("liftgate" ∈ special_services → liftgate_fee special_services = 75.0)
      ∧ ("liftgate" ∉ special_services → liftgate_fee special_services = 0.0))
    ∧ ((∃ s ∈ special_services, normalizeService s = "climate_control") →
          climate_control_fee special_services = 150.0)
    ∧ ((¬ ∃ s ∈ special_services, normalizeService s = "climate_control") →
          climate_control_fee special_services = 0.0) := by
  refine ⟨⟨?_, ?_⟩, ?_, ?_⟩
  · intro h; simp [liftgate_fee, h]
  · intro h; simp [liftgate_fee, h]
  · rintro ⟨s, hs, hn⟩
    have hmem : "climate_control" ∈ special_services.map normalizeService :=
      List.mem_map.mpr ⟨s, hs, hn⟩
    simp [climate_control_fee, hmem]
  · intro h
    have hmem : "climate_control" ∉ special_services.map normalizeService := by
      intro hc
      obtain ⟨s, hs, hn⟩ := List.mem_map.mp hc
      exact h ⟨s, hs, hn⟩
    simp [climate_control_fee, hmem]

/-- Concrete instantiation of `C7_service_fees`: a capitalized
`"Liftgate"` does not trigger the liftgate fee (case-sensitive match), while
`"Climate Control"` normalizes to `"climate_control"` and does trigger the
climate-control fee. -/
theorem C7_service_fees_witness :
    liftgate_fee ["Liftgate", "Climate Control"] = 0.0
      ∧ climate_control_fee ["Liftgate", "Climate Control"] = 150.0 :=
  ⟨(C7_service_fees ["Liftgate", "Climate Control"]).1.2 (by decide),
    (C7_service_fees ["Liftgate", "Climate Control"]).2.1
      ⟨"Climate Control", by decide, by decide⟩⟩

/-- C8: equipment classification: flatbed above 10000 lbs, else reefer when
climate control is requested (normalized match), else dry van; the weight
test has priority, so any weight above 10000 yields flatbed regardless of
the requested services. -/
theorem C8_equipment_type (weight_lbs : ℚ) (special_services : List String) :
    equipment_type weight_lbs special_services =
        (if weight_lbs > 10000 then "flatbed"
          else if "climate_control" ∈ special_services.map normalizeService
            then "reefer" else "dry_van")
      ∧ (weight_lbs > 10000 → equipment_type weight_lbs special_services = "flatbed") := by
  refine ⟨rfl, ?_⟩
  intro h
  simp [equipment_type, h]

/-- Concrete instantiation of `C8_equipment_type`: 15000 lbs with climate
control requested is still classified as flatbed. -/
theorem C8_equipment_type_witness :
    (15000 : ℚ) > 10000 ∧ equipment_type 15000 ["climate_control"] = "flatbed" :=
  ⟨by norm_num, (C8_equipment_type 15000 ["climate_control"]).2 (by norm_num)⟩

/-- One entry of `ZIP_DATABASE` (quote_api.py lines 33-87): city, state and
coordinates for a postal code. -/
structure Location where
  city : String
  state : String
  lat : ℚ
  lon : ℚ
deriving DecidableEq

/-- The static `ZIP_DATABASE` table (lines 33-87), key first. -/
def ZIP_DATABASE : List (String × Location) :=
  [("10001", ⟨"New York", "NY", 40.7128, -74.0060⟩),
   ("90001", ⟨"Los Angeles", "CA", 34.0522, -118.2437⟩),
   ("90021", ⟨"Los Angeles", "CA", 34.0407, -118.2468⟩),
   ("60601", ⟨"Chicago", "IL", 41.8781, -87.6298⟩),
   ("77001", ⟨"Houston", "TX", 29.7604, -95.3698⟩),
   ("77002", ⟨"Houston", "TX", 29.7589, -95.3677⟩),
   ("85001", ⟨"Phoenix", "AZ", 33.4484, -112.0740⟩),
   ("19103", ⟨"Philadelphia", "PA", 39.9526, -75.1652⟩),
   ("78205", ⟨"San Antonio", "TX", 29.4241, -98.4936⟩),
   ("78701", ⟨"Austin", "TX", 30.2672, -97.7431⟩),
   ("78702", ⟨"Austin", "TX", 30.2586, -97.7242⟩),
   ("92101", ⟨"San Diego", "CA", 32.7157, -117.1611⟩),
   ("75201", ⟨"Dallas", "TX", 32.7767, -96.7970⟩),
   ("95113", ⟨"San Jose", "CA", 37.3382, -121.8863⟩),
   ("32202", ⟨"Jacksonville", "FL", 30.3322, -81.6557⟩),
   ("76102", ⟨"Fort Worth", "TX", 32.7555, -97.3308⟩),
   ("43215", ⟨"Columbus", "OH", 39.9612, -82.9988⟩),
   ("28202", ⟨"Charlotte", "NC", 35.2271, -80.8431⟩),
   ("94102", ⟨"San Francisco", "CA", 37.7749, -122.4194⟩),
   ("46204", ⟨"Indianapolis", "IN", 39.7684, -86.1581⟩),
   ("98101", ⟨"Seattle", "WA", 47.6062, -122.3321⟩),
   ("80202", ⟨"Denver", "CO", 39.7392, -104.9903⟩),
   ("20001", ⟨"Washington", "DC", 38.9072, -77.0369⟩),
   ("02108", ⟨"Boston", "MA", 42.3601, -71.0589⟩),
   ("79901", ⟨"El Paso", "TX", 31.7619, -106.4850⟩),
   ("37219", ⟨"Nashville", "TN", 36.1627, -86.7816⟩),
   ("48226", ⟨"Detroit", "MI", 42.3314, -83.0458⟩),
   ("73102", ⟨"Oklahoma City", "OK", 35.4676, -97.5164⟩),
   ("97201", ⟨"Portland", "OR", 45.5152, -122.6784⟩),
   ("89101", ⟨"Las Vegas", "NV", 36.1699, -115.1398⟩),
   ("38103", ⟨"Memphis", "TN", 35.1495, -90.0490⟩),
   ("40202", ⟨"Louisville", "KY", 38.2527, -85.7585⟩),
   ("21201", ⟨"Baltimore", "MD", 39.2904, -76.6122⟩),
   ("53202", ⟨"Milwaukee", "WI", 43.0389, -87.9065⟩),
   ("07102", ⟨"Newark", "NJ", 40.7357, -74.1724⟩),
   ("87102", ⟨"Albuquerque", "NM", 35.0844, -106.6504⟩),
   ("85701", ⟨"Tucson", "AZ", 32.2226, -110.9747⟩),
   ("93721", ⟨"Fresno", "CA", 36.7378, -119.7871⟩),
   ("95814", ⟨"Sacramento", "CA", 38.5816, -121.4944⟩),
   ("64106", ⟨"Kansas City", "MO", 39.0997, -94.5786⟩),
   ("85201", ⟨"Mesa", "AZ", 33.4152, -111.8315⟩),
   ("30303", ⟨"Atlanta", "GA", 33.7490, -84.3880⟩),
   ("68102", ⟨"Omaha", "NE", 41.2565, -95.9345⟩),
   ("80903", ⟨"Colorado Springs", "CO", 38.8339, -104.8214⟩),
   ("27601", ⟨"Raleigh", "NC", 35.7796, -78.6382⟩),
   ("90802", ⟨"Long Beach", "CA", 33.7701, -118.1937⟩),
   ("23451", ⟨"Virginia Beach", "VA", 36.8529, -75.9780⟩),
   ("94612", ⟨"Oakland", "CA", 37.8044, -122.2711⟩),
   ("55401", ⟨"Minneapolis", "MN", 44.9778, -93.2650⟩),
   ("74103", ⟨"Tulsa", "OK", 36.1540, -95.9928⟩),
   ("67202", ⟨"Wichita", "KS", 37.6872, -97.3301⟩),
   ("70112", ⟨"New Orleans", "LA", 29.9511, -90.0715⟩),
   ("33602", ⟨"Tampa", "FL", 27.9506, -82.4572⟩)]

/-- `ZIP_DATABASE[zip]` / `zip in ZIP_DATABASE`: exact-match lookup. -/
def zipLookup (zip : String) : Option Location :=
  ZIP_DATABASE.lookup zip

/-- The dictionary returned by the resolver: distance in miles, duration in
hours, optional opaque route geometry. -/
structure DistanceResult where
  distance_miles : ℝ
  duration_hours : ℝ
  route_geometry : Option String

/-- Python `math.radians`. -/
noncomputable def radians (x : ℚ) : ℝ := (x : ℝ) * Real.pi / 180

/-- The haversine computation of `fallback_distance_calculation`
(lines 208-218): Earth radius 3959 miles. -/
noncomputable def haversine_miles (loc1 loc2 : Location) : ℝ :=
  let lat1 := radians loc1.lat
  let lon1 := radians loc1.lon
  let lat2 := radians loc2.lat
  let lon2 := radians loc2.lon
  let dlat := lat2 - lat1
  let dlon := lon2 - lon1
  let a := Real.sin (dlat / 2) ^ 2 +
    Real.cos lat1 * Real.cos lat2 * Real.sin (dlon / 2) ^ 2
  let c := 2 * Real.arcsin (Real.sqrt a)
  3959 * c

/-- `fallback_distance_calculation` (lines 196-225): haversine distance at
60 mph when both codes are known, otherwise the fixed 1000-mile/16-hour
placeholder. -/
noncomputable def fallback_distance_calculation (origin_zip dest_zip : String) :
    DistanceResult :=
  match zipLookup origin_zip, zipLookup dest_zip with
  | some loc1, some loc2 =>
      { distance_miles := haversine_miles loc1 loc2
        duration_hours := haversine_miles loc1 loc2 / 60
        route_geometry := none }
  | _, _ =>
      { distance_miles := 1000.0
        duration_hours := 16.0
        route_geometry := none }

/-- One route of a Mapbox Directions response: distance in meters, duration
in seconds, geojson geometry. -/
structure MapboxRoute where
  distance : ℝ
  duration : ℝ
  geometry : String

/-- Observable behavior of the single Mapbox Directions call made by
`get_mapbox_distance`: an exception (network error, bad JSON, ...) or a
response with a status code and a route list. -/
inductive MapboxOutcome where
  | exc : MapboxOutcome
  | resp (status : ℕ) (routes : List MapboxRoute) : MapboxOutcome

/-- Python truthiness of `MAPBOX_API_KEY` (`os.getenv` result): `None` and
`""` are falsy. -/
def pyTruthyStr : Option String → Bool
  | none => false
  | some s => !s.isEmpty

/-- `get_mapbox_distance` (lines 128-193): fall back when the key is unset,
when either code is unknown, on an exception, on a non-200 status, or on a
200 response with no routes; otherwise convert the first route's meters to
miles (x 0.000621371) and seconds to hours (/ 3600). -/
noncomputable def get_mapbox_distance (key : Option String) (svc : MapboxOutcome)
    (origin_zip dest_zip : String) : DistanceResult :=
  if pyTruthyStr key = true then
    match zipLookup origin_zip, zipLookup dest_zip with
    | some _, some _ =>
        (match svc with
         | MapboxOutcome.exc => fallback_distance_calculation origin_zip dest_zip
         | MapboxOutcome.resp status routes =>
             if status = 200 then
               match routes with
               | route :: _ =>
                   { distance_miles := route.distance * 0.000621371
                     duration_hours := route.duration / 3600
                     route_geometry := some route.geometry }
               | [] => fallback_distance_calculation origin_zip dest_zip
             else fallback_distance_calculation origin_zip dest_zip)
    | _, _ => fallback_distance_calculation origin_zip dest_zip
  else fallback_distance_calculation origin_zip dest_zip

/-- A routing-service response reports physically meaningful (nonnegative)
distances and durations; exceptions and status codes are unconstrained. -/
def routesNonneg : MapboxOutcome → Prop
  | MapboxOutcome.exc => True
  | MapboxOutcome.resp _ routes => ∀ r ∈ routes, 0 ≤ r.distance ∧ 0 ≤ r.duration

lemma haversine_miles_nonneg (loc1 loc2 : Location) :
    0 ≤ haversine_miles loc1 loc2 := by
  unfold haversine_miles
  have h := Real.arcsin_nonneg.mpr (Real.sqrt_nonneg
    (Real.sin ((radians loc2.lat - radians loc1.lat) / 2) ^ 2 +
      Real.cos (radians loc1.lat) * Real.cos (radians loc2.lat) *
        Real.sin ((radians loc2.lon - radians loc1.lon) / 2) ^ 2))
  linarith

lemma fallback_nonneg (origin_zip dest_zip : String) :
    0 ≤ (fallback_distance_calculation origin_zip dest_zip).distance_miles ∧
      0 ≤ (fallback_distance_calculation origin_zip dest_zip).duration_hours := by
  unfold fallback_distance_calculation
  cases h1 : zipLookup origin_zip <;> cases h2 : zipLookup dest_zip <;> simp
  · norm_num
  · norm_num
  · norm_num
  · rename_i loc1 loc2
    exact ⟨haversine_miles_nonneg loc1 loc2,
      div_nonneg (haversine_miles_nonneg loc1 loc2) (by norm_num)⟩

/-- C3: the resolver is total and always usable: for every key state, every
service behavior (with physically meaningful route values) and every pair of
postal-code strings, it returns a result with nonnegative distance and
duration. -/
theorem C3_resolver_always_usable (key : Option String) (svc : MapboxOutcome)
    (origin_zip dest_zip : String) (h : routesNonneg svc) :
    0 ≤ (get_mapbox_distance key svc origin_zip dest_zip).distance_miles ∧
      0 ≤ (get_mapbox_distance key svc origin_zip dest_zip).duration_hours := by
  unfold get_mapbox_distance
  by_cases hkey : pyTruthyStr key = true
  · simp only [hkey, if_true]
    cases h1 : zipLookup origin_zip <;> cases h2 : zipLookup dest_zip <;>
      simp only []
    · exact fallback_nonneg origin_zip dest_zip
    · exact fallback_nonneg origin_zip dest_zip
    · exact fallback_nonneg origin_zip dest_zip
    · cases svc with
      | exc => exact fallback_nonneg origin_zip dest_zip
      | resp status routes =>
          by_cases hst : status = 200
          · simp only [hst, if_true]
            cases routes with
            | nil => exact fallback_nonneg origin_zip dest_zip
            | cons route rest =>
                have hr := h route (List.mem_cons_self route rest)
                exact ⟨mul_nonneg hr.1 (by norm_num),
                  div_nonneg hr.2 (by norm_num)⟩
          · simp only [hst, if_false]
            exact fallback_nonneg origin_zip dest_zip
  · simp only [hkey, if_false]
    exact fallback_nonneg origin_zip dest_zip

/-- Concrete instantiation of `C3_resolver_always_usable`. -/
theorem C3_resolver_always_usable_witness :
    routesNonneg MapboxOutcome.exc ∧
      (0 ≤ (get_mapbox_distance none MapboxOutcome.exc "10001" "99999").distance_miles ∧
        0 ≤ (get_mapbox_distance none MapboxOutcome.exc "10001" "99999").duration_hours) :=
  ⟨trivial, C3_resolver_always_usable none MapboxOutcome.exc "10001" "99999" trivial⟩

/-- The live routing call cannot be used: key unset/empty, exception, or a
response that is non-200 or carries no routes. -/
def service_unusable (key : Option String) (svc : MapboxOutcome) : Prop :=
  pyTruthyStr key = false ∨ svc = MapboxOutcome.exc ∨
    ∃ status routes, svc = MapboxOutcome.resp status routes ∧
      (status ≠ 200 ∨ routes = [])

/-- C4 fails as stated: with unknown postal codes and no credential the
resolver returns the fixed placeholder, whose duration (16.0 h) is not
`distance_miles / 60` (1000.0 / 60 h), so the claimed haversine/60-mph
fallback does not cover the unknown-code case. -/
theorem C4_counterexample :
    ¬ ((get_mapbox_distance none MapboxOutcome.exc "00000" "99999").duration_hours =
        (get_mapbox_distance none MapboxOutcome.exc "00000" "99999").distance_miles / 60) := by
  have h0 : zipLookup "00000" = none := by decide
  have h : get_mapbox_distance none MapboxOutcome.exc "00000" "99999" =
      { distance_miles := 1000.0, duration_hours := 16.0, route_geometry := none } := by
    unfold get_mapbox_distance fallback_distance_calculation
    simp [pyTruthyStr, h0]
  rw [h]
  norm_num

/-- C4 (amended): whenever the live routing service cannot be used AND both
postal codes are present in the location table, the resolver returns the
haversine great-circle distance (Earth radius 3959 miles) with duration
`distance_miles / 60`; when either code is absent the fixed placeholder
(1000.0 miles, 16.0 hours) is returned instead of a haversine value. -/
theorem C4_fallback_haversine (key : Option String) (svc : MapboxOutcome)
    (origin_zip dest_zip : String) (loc1 loc2 : Location)
    (h1 : zipLookup origin_zip = some loc1) (h2 : zipLookup dest_zip = some loc2)
    (hu : service_unusable key svc) :
    get_mapbox_distance key svc origin_zip dest_zip =
      { distance_miles := haversine_miles loc1 loc2
        duration_hours := haversine_miles loc1 loc2 / 60
        route_geometry := none } := by
  have hf : fallback_distance_calculation origin_zip dest_zip =
      { distance_miles := haversine_miles loc1 loc2
        duration_hours := haversine_miles loc1 loc2 / 60
        route_geometry := none } := by
    unfold fallback_distance_calculation
    rw [h1, h2]
  rcases hu with hkey | hexc | ⟨status, routes, hresp, hbad⟩
  · unfold get_mapbox_distance
    rw [hkey]
    simpa using hf
  · subst hexc
    unfold get_mapbox_distance
    by_cases hkey : pyTruthyStr key = true
    · simp only [hkey, if_true, h1, h2]
      exact hf
    · rw [if_neg hkey]
      exact hf
  · subst hresp
    unfold get_mapbox_distance
    by_cases hkey : pyTruthyStr key = true
    · simp only [hkey, if_true, h1, h2]
      rcases hbad with hst | hroutes
      · rw [if_neg hst]
        exact hf
      · subst hroutes
        by_cases hst : status = 200
        · rw [if_pos hst]
          exact hf
        · rw [if_neg hst]
          exact hf
    · rw [if_neg hkey]
      exact hf

/-- Concrete instantiation of `C4_fallback_haversine`: Los Angeles 90021 to
Chicago 60601 with no credential. -/
theorem C4_fallback_haversine_witness :
    zipLookup "90021" = some ⟨"Los Angeles", "CA", 34.0407, -118.2468⟩
      ∧ zipLookup "60601" = some ⟨"Chicago", "IL", 41.8781, -87.6298⟩
      ∧ service_unusable none MapboxOutcome.exc
      ∧ get_mapbox_distance none MapboxOutcome.exc "90021" "60601" =
          { distance_miles := haversine_miles ⟨"Los Angeles", "CA", 34.0407, -118.2468⟩
              ⟨"Chicago", "IL", 41.8781, -87.6298⟩
            duration_hours := haversine_miles ⟨"Los Angeles", "CA", 34.0407, -118.2468⟩
              ⟨"Chicago", "IL", 41.8781, -87.6298⟩ / 60
            route_geometry := none } :=
  ⟨rfl, rfl, Or.inl rfl,
    C4_fallback_haversine none MapboxOutcome.exc "90021" "60601"
      ⟨"Los Angeles", "CA", 34.0407, -118.2468⟩ ⟨"Chicago", "IL", 41.8781, -87.6298⟩
      rfl rfl (Or.inl rfl)⟩

/-- C5: with no routing service configured and at least one postal code
absent from the table, the resolver returns exactly the 1000.0-mile /
16.0-hour placeholder. -/
theorem C5_unknown_placeholder (key : Option String) (svc : MapboxOutcome)
    (origin_zip dest_zip : String) (hkey : pyTruthyStr key = false)
    (h : zipLookup origin_zip = none ∨ zipLookup dest_zip = none) :
    get_mapbox_distance key svc origin_zip dest_zip =
      { distance_miles := 1000.0, duration_hours := 16.0, route_geometry := none } := by
  unfold get_mapbox_distance
  rw [hkey]
  simp only [Bool.false_eq_true, if_false]
  unfold fallback_distance_calculation
  rcases h with h | h
  · rw [h]
  · rw [h]
    cases zipLookup origin_zip <;> rfl

/-- Concrete instantiation of `C5_unknown_placeholder` with two unknown
codes and no key. -/
theorem C5_unknown_placeholder_witness :
    pyTruthyStr none = false ∧ zipLookup "00000" = none ∧
      get_mapbox_distance none MapboxOutcome.exc "00000" "99999" =
        { distance_miles := 1000.0, duration_hours := 16.0, route_geometry := none } :=
  ⟨rfl, by decide,
    C5_unknown_placeholder none MapboxOutcome.exc "00000" "99999" rfl
      (Or.inl (by decide))⟩

lemma hav_core_symm (a b c d : ℝ) :
    Real.sin ((b - a) / 2) ^ 2 +
        Real.cos a * Real.cos b * Real.sin ((d - c) / 2) ^ 2 =
      Real.sin ((a - b) / 2) ^ 2 +
        Real.cos b * Real.cos a * Real.sin ((c - d) / 2) ^ 2 := by
  rw [show (b - a) / 2 = -((a - b) / 2) by ring,
    show (d - c) / 2 = -((c - d) / 2) by ring,
    Real.sin_neg, Real.sin_neg]
  ring

lemma haversine_miles_symm (loc1 loc2 : Location) :
    haversine_miles loc1 loc2 = haversine_miles loc2 loc1 := by
  unfold haversine_miles
  simp only []
  rw [hav_core_symm (radians loc1.lat) (radians loc2.lat)
    (radians loc1.lon) (radians loc2.lon)]

/-- C9: the haversine fallback is symmetric: for two postal codes both in
the table, resolving them in either order via the fallback gives the same
distance. -/
theorem C9_fallback_symmetric (origin_zip dest_zip : String) (loc1 loc2 : Location)
    (h1 : zipLookup origin_zip = some loc1) (h2 : zipLookup dest_zip = some loc2) :
    (fallback_distance_calculation origin_zip dest_zip).distance_miles =
      (fallback_distance_calculation dest_zip origin_zip).distance_miles := by
  unfold fallback_distance_calculation
  rw [h1, h2]
  exact haversine_miles_symm loc1 loc2

/-- Concrete instantiation of `C9_fallback_symmetric`: New York 10001 and
Los Angeles 90001. -/
theorem C9_fallback_symmetric_witness :
    zipLookup "10001" = some ⟨"New York", "NY", 40.7128, -74.0060⟩
      ∧ zipLookup "90001" = some ⟨"Los Angeles", "CA", 34.0522, -118.2437⟩
      ∧ (fallback_distance_calculation "10001" "90001").distance_miles =
          (fallback_distance_calculation "90001" "10001").distance_miles :=
  ⟨rfl, rfl,
    C9_fallback_symmetric "10001" "90001"
      ⟨"New York", "NY", 40.7128, -74.0060⟩ ⟨"Los Angeles", "CA", 34.0522, -118.2437⟩
      rfl rfl⟩

/-- `generate_static_map_url` (lines 228-291), parameterized by the Python
float-to-string rendering `fstr` used inside the f-strings (the rendered
digits are irrelevant to the properties proved about the URL). Returns
`none` when the key is unset/empty or either code is unknown; otherwise the
static-map URL whose query string carries the configured key. -/
def generate_static_map_url (fstr : ℚ → String) (key : Option String)
    (origin_zip dest_zip : String) (route_geometry : Option String) : Option String :=
  match key with
  | none => none
  | some k =>
      if k = "" then none
      else
        match zipLookup origin_zip, zipLookup dest_zip with
        | some origin, some dest =>
            let center_lon := (origin.lon + dest.lon) / 2
            let center_lat := (origin.lat + dest.lat) / 2
            let lon_diff := |origin.lon - dest.lon|
            let lat_diff := |origin.lat - dest.lat|
            let max_diff := max lon_diff lat_diff
            let zoom : ℕ :=
              if max_diff < 1 then 8
              else if max_diff < 3 then 6
              else if max_diff < 7 then 5
              else if max_diff < 15 then 4
              else 3
            let overlays : List String :=
              ["pin-s-a+00ff00(" ++ fstr origin.lon ++ "," ++ fstr origin.lat ++ ")",
               "pin-s-b+ff0000(" ++ fstr dest.lon ++ "," ++ fstr dest.lat ++ ")"] ++
                (match route_geometry with
                 | some g =>
                     if g = "" then []
                     else ["path-5+0000ff-0.6(" ++ fstr origin.lon ++ "," ++
                       fstr origin.lat ++ "," ++ fstr dest.lon ++ "," ++
                       fstr dest.lat ++ ")"]
                 | none => [])
            let overlay_str := String.intercalate "," overlays
            some ("https://api.mapbox.com/styles/v1/mapbox/streets-v11/static/" ++
              overlay_str ++ "/" ++ fstr center_lon ++ "," ++ fstr center_lat ++ "," ++
              toString zoom ++ "/" ++ toString (600 : ℕ) ++ "x" ++ toString (400 : ℕ) ++
              "?access_token=" ++ k)
        | _, _ => none

/-- C10: whenever a route-map URL is produced (key configured, both codes in
the table), the returned URL string ends with `?access_token=` followed by
the configured service credential verbatim, for every float rendering. -/
theorem C10_map_url_discloses_token (fstr : ℚ → String) (key : Option String)
    (origin_zip dest_zip : String) (route_geometry : Option String)
    (k : String) (loc1 loc2 : Location)
    (hkey : key = some k) (hk : k ≠ "")
    (h1 : zipLookup origin_zip = some loc1) (h2 : zipLookup dest_zip = some loc2) :
    ∃ rest, generate_static_map_url fstr key origin_zip dest_zip route_geometry =
      some (rest ++ "?access_token=" ++ k) := by
  subst hkey
  simp only [generate_static_map_url, h1, h2, if_neg hk]
  exact ⟨_, rfl⟩

/-- Concrete instantiation of `C10_map_url_discloses_token` with a constant
float rendering and the credential string "SECRET". -/
theorem C10_map_url_discloses_token_witness :
    (some "SECRET" : Option String) = some "SECRET" ∧ "SECRET" ≠ "" ∧
      zipLookup "10001" = some ⟨"New York", "NY", 40.7128, -74.0060⟩ ∧
      zipLookup "90001" = some ⟨"Los Angeles", "CA", 34.0522, -118.2437⟩ ∧
      ∃ rest, generate_static_map_url (fun _ => "0") (some "SECRET") "10001" "90001" none =
        some (rest ++ "?access_token=" ++ "SECRET") :=
  ⟨rfl, by decide, rfl, rfl,
    C10_map_url_discloses_token (fun _ => "0") (some "SECRET") "10001" "90001" none
      "SECRET" ⟨"New York", "NY", 40.7128, -74.0060⟩
      ⟨"Los Angeles", "CA", 34.0522, -118.2437⟩ rfl (by decide) rfl rfl⟩

end QuoteApi
